import Mathlib

/-!
Shallow embedding of `modules/audio_processing/audio_buffer.cc` (WebRTC
`AudioBuffer`), together with theorems checking the natural-language
specification against it.

Modelling decisions:
* Sample values are rationals (`ℚ`); the float-normalized and S16-range
  float domains are both embedded into `ℚ`.
* A dual-format channel buffer (`IFChannelBuffer`) is modelled by the
  logical contents of its float side (`fdata`, a total function
  `channel → sample → ℚ`), plus its shape fields.  An integer-side write of
  a 16-bit value `v` stores the exact cast `(v : ℚ)` (the spec's
  `i16 → float` conversion is the exact cast).  Indices outside the
  allocated shape are don't-care values; each operation only rewrites the
  index range the corresponding C++ loop writes.
* The per-channel sinc resamplers and the splitting filter are opaque
  external collaborators; a resampler is passed to each operation as an
  abstract per-channel signal transformer, and the resampler collections
  are modelled by their sizes (`input_resamplers`, `output_resamplers`),
  which is all the specification speaks about.
* `input_buffer_allocs` is an instrumentation counter incremented exactly
  where the C++ code executes `input_buffer_.reset(new IFChannelBuffer…)`,
  so that "allocated at most once" is statable.
* Each C++ method is translated as a composition of one named stage per
  commented block of the source (lazy allocation / downmix / resample /
  format conversion / upmix), applied in the source's order.
-/

namespace Webrtc

/-- Embedding of `common_audio/channel_buffer.h` `IFChannelBuffer`, reduced to its
observable state: shape (frames, bands, active channel count) and the
logical float-side contents. -/
structure IFChannelBuffer where
  num_frames : Nat
  num_bands : Nat
  num_channels : Nat
  fdata : Nat → Nat → ℚ

/-- A freshly constructed `IFChannelBuffer(frames, channels, bands)`:
zero-initialized contents.  Single-band construction passes `bands = 1`. -/
def IFChannelBuffer.mk0 (frames channels bands : Nat) : IFChannelBuffer :=
  { num_frames := frames, num_bands := bands, num_channels := channels,
    fdata := fun _ _ => 0 }

/-- Embedding of `IFChannelBuffer::set_num_channels`. -/
def IFChannelBuffer.set_num_channels (b : IFChannelBuffer) (k : Nat) : IFChannelBuffer :=
  { b with num_channels := k }

/-- View of all channels at one band: `channels(band)[c][i]`.  In the C++
layout channel `c`, band `band` starts at offset `band * (num_frames /
num_bands)` inside channel `c`'s slice. -/
def IFChannelBuffer.bandChannels (b : IFChannelBuffer) (band : Nat) : Nat → Nat → ℚ :=
  fun c i => b.fdata c (band * (b.num_frames / b.num_bands) + i)

/-- Constant `kSamplesPer16kHzChannel` from `audio_buffer.cc`. -/
def kSamplesPer16kHzChannel : Nat := 160

/-- Constant `kSamplesPer32kHzChannel` from `audio_buffer.cc`. -/
def kSamplesPer32kHzChannel : Nat := 320

/-- Constant `kSamplesPer48kHzChannel` from `audio_buffer.cc`. -/
def kSamplesPer48kHzChannel : Nat := 480

/-- Embedding of `NumBandsFromSamplesPerChannel` from `audio_buffer.cc`.
`rtc::CheckedDivExact` is an exact division (asserted exact); both uses in
this file divide evenly, so it is modelled as `Nat` division. -/
def NumBandsFromSamplesPerChannel (num_frames : Nat) : Nat :=
  if num_frames = kSamplesPer32kHzChannel ∨ num_frames = kSamplesPer48kHzChannel then
    num_frames / kSamplesPer16kHzChannel
  else
    1

/-- Modelled from the spec: `FloatToFloatS16` of `audio_util.h` is absent
from the sources; §4.3 says "multiply by 32768; clamp result to
[-32768, 32767]". -/
def FloatToFloatS16 (v : ℚ) : ℚ :=
  max (-32768) (min (v * 32768) 32767)

/-- Modelled from the spec: `FloatS16ToFloat` of `audio_util.h` is absent
from the sources; §4.3 says "divide by 32768". -/
def FloatS16ToFloat (v : ℚ) : ℚ :=
  v / 32768

/-- Modelled from the spec: planar `DownmixToMono` of `audio_util.h` is
absent from the sources; §4.3 says "for each frame t, output sample is the
arithmetic mean of the channels planar samples at frame t". -/
def DownmixToMono (num_channels : Nat) (x : Nat → Nat → ℚ) : Nat → ℚ :=
  fun t => (Finset.sum (Finset.range num_channels) fun c => x c t) / (num_channels : ℚ)

/-- Modelled from the spec: `DownmixInterleavedToMono` of `audio_util.h` is
absent from the sources; §4.3 says "for each frame t, output sample is the
arithmetic mean of the channels interleaved samples at frame t, truncated
toward zero". -/
def DownmixInterleavedToMono (num_channels : Nat) (d : Nat → Int) (t : Nat) : Int :=
  Int.tdiv (Finset.sum (Finset.range num_channels) fun c => d (t * num_channels + c))
    (num_channels : Int)

/-- The state of `webrtc::AudioBuffer`.  `num_channels` is the active
channel count (`num_channels_`); `input_resamplers` / `output_resamplers`
are the sizes of the per-channel resampler vectors; `input_buffer_allocs`
counts executions of the lazy `input_buffer_` allocation. -/
structure AudioBuffer where
  input_num_frames : Nat
  num_input_channels : Nat
  proc_num_frames : Nat
  num_proc_channels : Nat
  output_num_frames : Nat
  num_channels : Nat
  num_bands : Nat
  num_split_frames : Nat
  data : IFChannelBuffer
  split_data : Option IFChannelBuffer
  output_buffer : IFChannelBuffer
  input_buffer : Option IFChannelBuffer
  process_buffer : Option (Nat → Nat → ℚ)
  input_resamplers : Nat
  output_resamplers : Nat
  input_buffer_allocs : Nat

/-- The `AudioBuffer` constructor. -/
def mkAudioBuffer (input_num_frames num_input_channels process_num_frames
    num_process_channels output_num_frames : Nat) : AudioBuffer :=
  let nb := NumBandsFromSamplesPerChannel process_num_frames
  { input_num_frames := input_num_frames
    num_input_channels := num_input_channels
    proc_num_frames := process_num_frames
    num_proc_channels := num_process_channels
    output_num_frames := output_num_frames
    num_channels := num_process_channels
    num_bands := nb
    num_split_frames := process_num_frames / nb
    data := IFChannelBuffer.mk0 process_num_frames num_process_channels 1
    split_data :=
      if 1 < nb then
        some (IFChannelBuffer.mk0 process_num_frames num_process_channels nb)
      else
        none
    output_buffer := IFChannelBuffer.mk0 output_num_frames num_process_channels 1
    input_buffer := none
    process_buffer :=
      if input_num_frames ≠ process_num_frames ∨ output_num_frames ≠ process_num_frames then
        some (fun _ _ => 0)
      else
        none
    input_resamplers :=
      if input_num_frames ≠ process_num_frames then num_process_channels else 0
    output_resamplers :=
      if output_num_frames ≠ process_num_frames then num_process_channels else 0
    input_buffer_allocs := 0 }

/-- Embedding of `AudioBuffer::InitForNewData`. -/
def AudioBuffer.InitForNewData (ab : AudioBuffer) : AudioBuffer :=
  { ab with
    num_channels := ab.num_proc_channels
    data := ab.data.set_num_channels ab.num_proc_channels
    split_data := ab.split_data.map fun sd => sd.set_num_channels ab.num_proc_channels }

/-- The `need_to_downmix` condition of `AudioBuffer::CopyFrom`. -/
def needToDownmix (ab : AudioBuffer) : Bool :=
  decide (1 < ab.num_input_channels) && decide (ab.num_proc_channels = 1)

/-- Lazy allocation stage of `CopyFrom`:
`if (need_to_downmix && !input_buffer_) input_buffer_.reset(new IFChannelBuffer(...))`. -/
def AudioBuffer.copyFromAlloc (ab : AudioBuffer) : AudioBuffer :=
  if needToDownmix ab && ab.input_buffer.isNone then
    { ab with
      input_buffer := some (IFChannelBuffer.mk0 ab.input_num_frames ab.num_proc_channels 1)
      input_buffer_allocs := ab.input_buffer_allocs + 1 }
  else
    ab

/-- Downmix stage of `CopyFrom`: `DownmixToMono` into
`input_buffer_->fbuf()->channels()[0]`, then point `data_ptr` at
`input_buffer_`'s float channels.  Returns the state and `data_ptr`. -/
def AudioBuffer.copyFromDownmix (ab : AudioBuffer) (x : Nat → Nat → ℚ) :
    AudioBuffer × (Nat → Nat → ℚ) :=
  if needToDownmix ab then
    let ib := ab.input_buffer.map fun ibuf =>
      { ibuf with fdata := fun c t =>
          (if c = 0 ∧ t < ab.input_num_frames then
            DownmixToMono ab.num_input_channels x t
          else
            ibuf.fdata c t) }
    -- `need_to_downmix` implies `input_buffer_` is present; the `getD`
    -- default covers the unreachable `none` case.
    ({ ab with input_buffer := ib }, (ib.map IFChannelBuffer.fdata).getD x)
  else
    (ab, x)

/-- Resample stage of `CopyFrom`: per processing channel, resample from
`data_ptr` into `process_buffer_`, then point `data_ptr` at it. -/
def AudioBuffer.copyFromResample (ab : AudioBuffer) (resample : Nat → (Nat → ℚ) → Nat → ℚ)
    (ptr : Nat → Nat → ℚ) : AudioBuffer × (Nat → Nat → ℚ) :=
  if ab.input_num_frames != ab.proc_num_frames then
    let pb := ab.process_buffer.map fun p => fun c t =>
      (if c < ab.num_proc_channels ∧ t < ab.proc_num_frames then
        resample c (ptr c) t
      else
        p c t)
    -- resampling is only reached when the constructor made
    -- `process_buffer_`; the `getD` default covers the unreachable `none`.
    ({ ab with process_buffer := pb }, pb.getD fun _ _ => 0)
  else
    (ab, ptr)

/-- Embedding of `AudioBuffer::CopyFrom(data, stream_config)`.  `resample` abstracts the
per-channel `PushSincResampler::Resample` (channel index, input signal ↦
output signal); `cfg_num_frames`/`cfg_num_channels` are the stream-config
fields, used in the source only for `RTC_DCHECK`s. -/
def AudioBuffer.CopyFrom (ab : AudioBuffer) (resample : Nat → (Nat → ℚ) → Nat → ℚ)
    (cfg_num_frames cfg_num_channels : Nat) (x : Nat → Nat → ℚ) : AudioBuffer :=
  let s1 := (ab.InitForNewData.copyFromAlloc).copyFromDownmix x
  let s2 := s1.1.copyFromResample resample s1.2
  -- `FloatToFloatS16(data_ptr[i], proc_num_frames_, data_->fbuf()->channels()[i])`.
  { s2.1 with data :=
      { s2.1.data with fdata := fun c t =>
          (if c < s2.1.num_proc_channels ∧ t < s2.1.proc_num_frames then
            FloatToFloatS16 (s2.2 c t)
          else
            s2.1.data.fdata c t) } }

/-- Conversion/resampling stage of `CopyTo`: convert `data_`'s float side to
the normalized float range, directly into the caller's output when no
output resampling is needed, through `process_buffer_` and the per-channel
resamplers otherwise.  Returns the state and the caller's output array. -/
def AudioBuffer.copyToConvert (ab : AudioBuffer) (resample : Nat → (Nat → ℚ) → Nat → ℚ)
    (out0 : Nat → Nat → ℚ) : AudioBuffer × (Nat → Nat → ℚ) :=
  if ab.output_num_frames != ab.proc_num_frames then
    let pb := ab.process_buffer.map fun p => fun c t =>
      (if c < ab.num_channels ∧ t < ab.proc_num_frames then
        FloatS16ToFloat (ab.data.fdata c t)
      else
        p c t)
    let ptr := pb.getD fun _ _ => 0
    ({ ab with process_buffer := pb },
      fun c t =>
        (if c < ab.num_channels ∧ t < ab.output_num_frames then
          resample c (ptr c) t
        else
          out0 c t))
  else
    (ab, fun c t =>
      (if c < ab.num_channels ∧ t < ab.proc_num_frames then
        FloatS16ToFloat (ab.data.fdata c t)
      else
        out0 c t))

/-- Embedding of `AudioBuffer::CopyTo(stream_config, data)`.  Returns the updated buffer
(`process_buffer_` may be written through) and the caller's planar output
array, whose prior contents are `out0`. -/
def AudioBuffer.CopyTo (ab : AudioBuffer) (resample : Nat → (Nat → ℚ) → Nat → ℚ)
    (cfg_num_frames cfg_num_channels : Nat) (out0 : Nat → Nat → ℚ) :
    AudioBuffer × (Nat → Nat → ℚ) :=
  let s1 := ab.copyToConvert resample out0
  -- Upmix: `for i in [num_channels_, stream_config.num_channels()): memcpy`.
  (s1.1, fun c t =>
    (if s1.1.num_channels ≤ c ∧ c < cfg_num_channels ∧ t < s1.1.output_num_frames then
      s1.2 0 t
    else
      s1.2 c t))

/-- Lazy allocation stage of `DeinterleaveFrom`:
`if ((input_num_frames_ != proc_num_frames_) && !input_buffer_) input_buffer_.reset(...)`. -/
def AudioBuffer.deinterleaveAlloc (ab : AudioBuffer) : AudioBuffer :=
  if (ab.input_num_frames != ab.proc_num_frames) && ab.input_buffer.isNone then
    { ab with
      input_buffer := some (IFChannelBuffer.mk0 ab.input_num_frames ab.num_proc_channels 1)
      input_buffer_allocs := ab.input_buffer_allocs + 1 }
  else
    ab

/-- Integer value written to deinterleave destination channel `c`, frame
`t`: `DownmixInterleavedToMono` when `num_proc_channels_ == 1`, plain
`Deinterleave` otherwise (recorded on the float side as the exact cast). -/
def AudioBuffer.deinterleaveVal (ab : AudioBuffer) (d : Nat → Int) (c t : Nat) : ℚ :=
  if ab.num_proc_channels = 1 then
    ((DownmixInterleavedToMono ab.num_input_channels d t : Int) : ℚ)
  else
    ((d (t * ab.num_proc_channels + c) : Int) : ℚ)

/-- Deinterleave/downmix stage of `DeinterleaveFrom`: write the integer
planar samples into `data_`'s integer side when `input_num_frames_ ==
proc_num_frames_`, into `input_buffer_`'s integer side otherwise. -/
def AudioBuffer.deinterleaveWrite (ab : AudioBuffer) (d : Nat → Int) : AudioBuffer :=
  if ab.input_num_frames == ab.proc_num_frames then
    { ab with data :=
        { ab.data with fdata := fun c t =>
            (if c < ab.num_proc_channels ∧ t < ab.input_num_frames then
              ab.deinterleaveVal d c t
            else
              ab.data.fdata c t) } }
  else
    { ab with input_buffer := ab.input_buffer.map fun ibuf =>
        { ibuf with fdata := fun c t =>
            (if c < ab.num_proc_channels ∧ t < ab.input_num_frames then
              ab.deinterleaveVal d c t
            else
              ibuf.fdata c t) } }

/-- Resample stage of `DeinterleaveFrom`: per processing channel, resample
from `input_buffer_`'s float side into `data_`'s float side. -/
def AudioBuffer.deinterleaveResample (ab : AudioBuffer)
    (resample : Nat → (Nat → ℚ) → Nat → ℚ) : AudioBuffer :=
  if ab.input_num_frames != ab.proc_num_frames then
    let src := (ab.input_buffer.map IFChannelBuffer.fdata).getD fun _ _ => 0
    { ab with data :=
        { ab.data with fdata := fun c t =>
            (if c < ab.num_proc_channels ∧ t < ab.proc_num_frames then
              resample c (src c) t
            else
              ab.data.fdata c t) } }
  else
    ab

/-- Embedding of `AudioBuffer::DeinterleaveFrom(frame)`.  The frame is `d`, an
interleaved signal of `frame_num_channels × frame_samples` 16-bit values;
`resample` abstracts `PushSincResampler::Resample`. -/
def AudioBuffer.DeinterleaveFrom (ab : AudioBuffer) (resample : Nat → (Nat → ℚ) → Nat → ℚ)
    (frame_num_channels frame_samples : Nat) (d : Nat → Int) : AudioBuffer :=
  (((ab.InitForNewData.deinterleaveAlloc).deinterleaveWrite d).deinterleaveResample resample)

/-- Embedding of `AudioBuffer::InterleaveTo(frame)`: only its effect on the buffer state
is modelled (on the resampling path it writes `output_buffer_`); the
interleaved frame it produces is not the subject of any claim. -/
def AudioBuffer.InterleaveTo (ab : AudioBuffer) (resample : Nat → (Nat → ℚ) → Nat → ℚ) :
    AudioBuffer :=
  if ab.proc_num_frames != ab.output_num_frames then
    { ab with output_buffer :=
        { ab.output_buffer with fdata := fun c t =>
            (if c < ab.num_channels ∧ t < ab.output_num_frames then
              resample c (ab.data.fdata c) t
            else
              ab.output_buffer.fdata c t) } }
  else
    ab

/-- Embedding of `AudioBuffer::set_num_channels`. -/
def AudioBuffer.set_num_channels (ab : AudioBuffer) (k : Nat) : AudioBuffer :=
  { ab with
    num_channels := k
    data := ab.data.set_num_channels k
    split_data := ab.split_data.map fun sd => sd.set_num_channels k }

/-- Embedding of `AudioBuffer::SplitIntoFrequencyBands`; `analysis` abstracts the opaque
`SplittingFilter::Analysis`, mapping the full-band contents to split-band
contents. -/
def AudioBuffer.SplitIntoFrequencyBands (ab : AudioBuffer)
    (analysis : (Nat → Nat → ℚ) → Nat → Nat → ℚ) : AudioBuffer :=
  { ab with split_data := ab.split_data.map fun sd =>
      { sd with fdata := analysis ab.data.fdata } }

/-- Embedding of `AudioBuffer::MergeFrequencyBands`; `synthesis` abstracts the opaque
`SplittingFilter::Synthesis`. -/
def AudioBuffer.MergeFrequencyBands (ab : AudioBuffer)
    (synthesis : (Nat → Nat → ℚ) → Nat → Nat → ℚ) : AudioBuffer :=
  { ab with data :=
      { ab.data with fdata :=
          (synthesis ((ab.split_data.map IFChannelBuffer.fdata).getD fun _ _ => 0)) } }

/-- Embedding of `AudioBuffer::split_channels_const_f(band)`: band views of `split_data_`
when it exists, the full-band `data_` channels for band 0 otherwise, and
`nullptr` (here `none`) for any other band. -/
def AudioBuffer.split_channels_const_f (ab : AudioBuffer) (band : Nat) :
    Option (Nat → Nat → ℚ) :=
  match ab.split_data with
  | some sd => some (sd.bandChannels band)
  | none => if band = 0 then some (fun c i => ab.data.fdata c i) else none

/-- One public mutating call on the buffer, for reasoning about whole runs. -/
inductive Op where
  | copyFrom (resample : Nat → (Nat → ℚ) → Nat → ℚ) (cfg_num_frames cfg_num_channels : Nat)
      (x : Nat → Nat → ℚ)
  | copyTo (resample : Nat → (Nat → ℚ) → Nat → ℚ) (cfg_num_frames cfg_num_channels : Nat)
      (out0 : Nat → Nat → ℚ)
  | deinterleaveFrom (resample : Nat → (Nat → ℚ) → Nat → ℚ)
      (frame_num_channels frame_samples : Nat) (d : Nat → Int)
  | interleaveTo (resample : Nat → (Nat → ℚ) → Nat → ℚ)
  | setNumChannels (k : Nat)
  | splitIntoFrequencyBands (analysis : (Nat → Nat → ℚ) → Nat → Nat → ℚ)
  | mergeFrequencyBands (synthesis : (Nat → Nat → ℚ) → Nat → Nat → ℚ)

/-- Apply one call to the buffer state. -/
def AudioBuffer.step (ab : AudioBuffer) : Op → AudioBuffer
  | .copyFrom r cf cc x => ab.CopyFrom r cf cc x
  | .copyTo r cf cc y => (ab.CopyTo r cf cc y).1
  | .deinterleaveFrom r fc fs d => ab.DeinterleaveFrom r fc fs d
  | .interleaveTo r => ab.InterleaveTo r
  | .setNumChannels k => ab.set_num_channels k
  | .splitIntoFrequencyBands a => ab.SplitIntoFrequencyBands a
  | .mergeFrequencyBands s => ab.MergeFrequencyBands s

/-- Apply a sequence of calls to the buffer state. -/
def AudioBuffer.run (ab : AudioBuffer) : List Op → AudioBuffer
  | [] => ab
  | op :: ops => (ab.step op).run ops

/-! ### Helper lemmas -/

theorem isSome_opt_map {α β : Type} (f : α → β) (o : Option α) :
    (o.map f).isSome = o.isSome := by
  cases o <;> rfl

theorem needToDownmix_iff (ab : AudioBuffer) :
    needToDownmix ab = true ↔ (1 < ab.num_input_channels ∧ ab.num_proc_channels = 1) := by
  simp [needToDownmix]

theorem needToDownmix_of_eq_channels (ab : AudioBuffer)
    (h : ab.num_input_channels = ab.num_proc_channels) : needToDownmix ab = false := by
  by_cases h1 : ab.num_proc_channels = 1
  · simp [needToDownmix, h, h1]
  · simp [needToDownmix, h1]

theorem floatS16_round_trip (v : ℚ) :
    FloatS16ToFloat (FloatToFloatS16 v) = max (-1) (min v (32767 / 32768)) := by
  unfold FloatS16ToFloat FloatToFloatS16
  rw [← max_div_div_right (by norm_num : (0:ℚ) ≤ 32768),
    ← min_div_div_right (by norm_num : (0:ℚ) ≤ 32768),
    mul_div_cancel_right₀ _ (by norm_num : (32768:ℚ) ≠ 0)]
  norm_num

/-- The shape-level observables of the buffer state that no public call may
change: fixed configuration, band derivation, resampler collection sizes,
and presence of `process_buffer_`. -/
def shape (a : AudioBuffer) :
    Nat × Nat × Nat × Nat × Nat × Nat × Nat × Nat × Nat × Bool :=
  (a.input_num_frames, a.num_input_channels, a.proc_num_frames, a.num_proc_channels,
    a.output_num_frames, a.num_bands, a.num_split_frames, a.input_resamplers,
    a.output_resamplers, a.process_buffer.isSome)

theorem shape_set_data (s : AudioBuffer) (d : IFChannelBuffer) :
    shape { s with data := d } = shape s := rfl

theorem shape_init (ab : AudioBuffer) : shape ab.InitForNewData = shape ab := rfl

theorem shape_copyFromAlloc (ab : AudioBuffer) : shape ab.copyFromAlloc = shape ab := by
  unfold AudioBuffer.copyFromAlloc
  split <;> rfl

theorem shape_copyFromDownmix (ab : AudioBuffer) (x : Nat → Nat → ℚ) :
    shape (ab.copyFromDownmix x).1 = shape ab := by
  unfold AudioBuffer.copyFromDownmix
  split <;> rfl

theorem shape_copyFromResample (ab : AudioBuffer) (r : Nat → (Nat → ℚ) → Nat → ℚ)
    (ptr : Nat → Nat → ℚ) : shape (ab.copyFromResample r ptr).1 = shape ab := by
  unfold AudioBuffer.copyFromResample
  split
  · simp [shape, isSome_opt_map]
  · rfl

theorem shape_copyFrom (ab : AudioBuffer) (r : Nat → (Nat → ℚ) → Nat → ℚ)
    (cf cc : Nat) (x : Nat → Nat → ℚ) : shape (ab.CopyFrom r cf cc x) = shape ab := by
  unfold AudioBuffer.CopyFrom
  rw [shape_set_data, shape_copyFromResample, shape_copyFromDownmix, shape_copyFromAlloc,
    shape_init]

theorem shape_copyToConvert (ab : AudioBuffer) (r : Nat → (Nat → ℚ) → Nat → ℚ)
    (out0 : Nat → Nat → ℚ) : shape (ab.copyToConvert r out0).1 = shape ab := by
  unfold AudioBuffer.copyToConvert
  split
  · simp [shape, isSome_opt_map]
  · rfl

theorem shape_copyTo (ab : AudioBuffer) (r : Nat → (Nat → ℚ) → Nat → ℚ)
    (cf cc : Nat) (out0 : Nat → Nat → ℚ) :
    shape (ab.CopyTo r cf cc out0).1 = shape ab := by
  unfold AudioBuffer.CopyTo
  exact shape_copyToConvert ab r out0

theorem shape_deinterleaveAlloc (ab : AudioBuffer) :
    shape ab.deinterleaveAlloc = shape ab := by
  unfold AudioBuffer.deinterleaveAlloc
  split <;> rfl

theorem shape_deinterleaveWrite (ab : AudioBuffer) (d : Nat → Int) :
    shape (ab.deinterleaveWrite d) = shape ab := by
  unfold AudioBuffer.deinterleaveWrite
  split <;> rfl

theorem shape_deinterleaveResample (ab : AudioBuffer) (r : Nat → (Nat → ℚ) → Nat → ℚ) :
    shape (ab.deinterleaveResample r) = shape ab := by
  unfold AudioBuffer.deinterleaveResample
  split <;> rfl

theorem shape_deinterleaveFrom (ab : AudioBuffer) (r : Nat → (Nat → ℚ) → Nat → ℚ)
    (fc fs : Nat) (d : Nat → Int) :
    shape (ab.DeinterleaveFrom r fc fs d) = shape ab := by
  unfold AudioBuffer.DeinterleaveFrom
  rw [shape_deinterleaveResample, shape_deinterleaveWrite, shape_deinterleaveAlloc,
    shape_init]

theorem shape_interleaveTo (ab : AudioBuffer) (r : Nat → (Nat → ℚ) → Nat → ℚ) :
    shape (ab.InterleaveTo r) = shape ab := by
  unfold AudioBuffer.InterleaveTo
  split <;> rfl

theorem shape_set_num_channels (ab : AudioBuffer) (k : Nat) :
    shape (ab.set_num_channels k) = shape ab := rfl

theorem shape_split (ab : AudioBuffer) (a : (Nat → Nat → ℚ) → Nat → Nat → ℚ) :
    shape (ab.SplitIntoFrequencyBands a) = shape ab := rfl

theorem shape_merge (ab : AudioBuffer) (s : (Nat → Nat → ℚ) → Nat → Nat → ℚ) :
    shape (ab.MergeFrequencyBands s) = shape ab := rfl

theorem step_shape (ab : AudioBuffer) (op : Op) : shape (ab.step op) = shape ab := by
  cases op with
  | copyFrom r cf cc x => exact shape_copyFrom ab r cf cc x
  | copyTo r cf cc y => exact shape_copyTo ab r cf cc y
  | deinterleaveFrom r fc fs d => exact shape_deinterleaveFrom ab r fc fs d
  | interleaveTo r => exact shape_interleaveTo ab r
  | setNumChannels k => exact shape_set_num_channels ab k
  | splitIntoFrequencyBands a => exact shape_split ab a
  | mergeFrequencyBands s => exact shape_merge ab s

theorem run_shape (ab : AudioBuffer) (ops : List Op) : shape (ab.run ops) = shape ab := by
  induction ops generalizing ab with
  | nil => rfl
  | cons op ops ih => rw [AudioBuffer.run, ih, step_shape]

theorem step_input_num_frames (ab : AudioBuffer) (op : Op) :
    (ab.step op).input_num_frames = ab.input_num_frames :=
  congrArg (fun s => s.1) (step_shape ab op)

theorem step_num_input_channels (ab : AudioBuffer) (op : Op) :
    (ab.step op).num_input_channels = ab.num_input_channels :=
  congrArg (fun s => s.2.1) (step_shape ab op)

theorem step_proc_num_frames (ab : AudioBuffer) (op : Op) :
    (ab.step op).proc_num_frames = ab.proc_num_frames :=
  congrArg (fun s => s.2.2.1) (step_shape ab op)

theorem step_num_proc_channels (ab : AudioBuffer) (op : Op) :
    (ab.step op).num_proc_channels = ab.num_proc_channels :=
  congrArg (fun s => s.2.2.2.1) (step_shape ab op)

theorem step_needToDownmix (ab : AudioBuffer) (op : Op) :
    needToDownmix (ab.step op) = needToDownmix ab := by
  unfold needToDownmix
  rw [step_num_input_channels, step_num_proc_channels]

theorem run_input_resamplers (ab : AudioBuffer) (ops : List Op) :
    (ab.run ops).input_resamplers = ab.input_resamplers :=
  congrArg (fun s => s.2.2.2.2.2.2.2.1) (run_shape ab ops)

theorem run_output_resamplers (ab : AudioBuffer) (ops : List Op) :
    (ab.run ops).output_resamplers = ab.output_resamplers :=
  congrArg (fun s => s.2.2.2.2.2.2.2.2.1) (run_shape ab ops)

theorem run_process_buffer_isSome (ab : AudioBuffer) (ops : List Op) :
    (ab.run ops).process_buffer.isSome = ab.process_buffer.isSome :=
  congrArg (fun s => s.2.2.2.2.2.2.2.2.2) (run_shape ab ops)

/-- Relation between the lazy `input_buffer_` and its allocation counter:
either never allocated (and absent), or allocated exactly once (and
present ever since). -/
def ibState (a : AudioBuffer) : Prop :=
  (a.input_buffer = none ∧ a.input_buffer_allocs = 0) ∨
  (a.input_buffer.isSome = true ∧ a.input_buffer_allocs = 1)

theorem ibState_alloc (ab : AudioBuffer) (cond : Bool) (buf : IFChannelBuffer)
    (h : ibState ab) :
    ibState (if cond && ab.input_buffer.isNone then
        { ab with input_buffer := some buf,
                  input_buffer_allocs := ab.input_buffer_allocs + 1 }
      else ab) := by
  unfold ibState at *
  rcases h with ⟨h1, h2⟩ | ⟨h1, h2⟩
  · split
    · right
      refine ⟨rfl, ?_⟩
      show ab.input_buffer_allocs + 1 = 1
      rw [h2]
    · left; exact ⟨h1, h2⟩
  · split
    next hcond =>
      exfalso
      rw [Bool.and_eq_true] at hcond
      cases hab : ab.input_buffer with
      | none => rw [hab] at h1; simp at h1
      | some v => rw [hab] at hcond; simp at hcond
    next => right; exact ⟨h1, h2⟩

theorem ibState_map (ab : AudioBuffer) (f : IFChannelBuffer → IFChannelBuffer)
    (h : ibState ab) : ibState { ab with input_buffer := ab.input_buffer.map f } := by
  unfold ibState at *
  rcases h with ⟨h1, h2⟩ | ⟨h1, h2⟩
  · left
    refine ⟨?_, h2⟩
    show ab.input_buffer.map f = none
    rw [h1]; rfl
  · right
    refine ⟨?_, h2⟩
    show (ab.input_buffer.map f).isSome = true
    rw [isSome_opt_map]; exact h1

theorem ibState_copyFromAlloc (ab : AudioBuffer) (h : ibState ab) :
    ibState ab.copyFromAlloc := by
  unfold AudioBuffer.copyFromAlloc
  exact ibState_alloc ab (needToDownmix ab) _ h

theorem ibState_copyFromDownmix (ab : AudioBuffer) (x : Nat → Nat → ℚ) (h : ibState ab) :
    ibState (ab.copyFromDownmix x).1 := by
  unfold AudioBuffer.copyFromDownmix
  split
  · exact ibState_map ab _ h
  · exact h

theorem ibState_copyFromResample (ab : AudioBuffer) (r : Nat → (Nat → ℚ) → Nat → ℚ)
    (ptr : Nat → Nat → ℚ) (h : ibState ab) : ibState (ab.copyFromResample r ptr).1 := by
  unfold AudioBuffer.copyFromResample
  split
  · exact h
  · exact h

theorem ibState_copyFrom (ab : AudioBuffer) (r : Nat → (Nat → ℚ) → Nat → ℚ)
    (cf cc : Nat) (x : Nat → Nat → ℚ) (h : ibState ab) :
    ibState (ab.CopyFrom r cf cc x) := by
  unfold AudioBuffer.CopyFrom
  exact ibState_copyFromResample _ _ _
    (ibState_copyFromDownmix _ _ (ibState_copyFromAlloc _ h))

theorem ibState_copyTo (ab : AudioBuffer) (r : Nat → (Nat → ℚ) → Nat → ℚ)
    (cf cc : Nat) (out0 : Nat → Nat → ℚ) (h : ibState ab) :
    ibState (ab.CopyTo r cf cc out0).1 := by
  unfold AudioBuffer.CopyTo AudioBuffer.copyToConvert
  split
  · exact h
  · exact h

theorem ibState_deinterleaveFrom (ab : AudioBuffer) (r : Nat → (Nat → ℚ) → Nat → ℚ)
    (fc fs : Nat) (d : Nat → Int) (h : ibState ab) :
    ibState (ab.DeinterleaveFrom r fc fs d) := by
  unfold AudioBuffer.DeinterleaveFrom
  have h1 : ibState ab.InitForNewData.deinterleaveAlloc := by
    unfold AudioBuffer.deinterleaveAlloc
    exact ibState_alloc _ _ _ h
  have h2 : ibState (ab.InitForNewData.deinterleaveAlloc.deinterleaveWrite d) := by
    unfold AudioBuffer.deinterleaveWrite
    split
    · exact h1
    · exact ibState_map _ _ h1
  unfold AudioBuffer.deinterleaveResample
  split
  · exact h2
  · exact h2

theorem step_ibState (ab : AudioBuffer) (op : Op) (h : ibState ab) :
    ibState (ab.step op) := by
  cases op with
  | copyFrom r cf cc x => exact ibState_copyFrom ab r cf cc x h
  | copyTo r cf cc y => exact ibState_copyTo ab r cf cc y h
  | deinterleaveFrom r fc fs d => exact ibState_deinterleaveFrom ab r fc fs d h
  | interleaveTo r =>
      show ibState (ab.InterleaveTo r)
      unfold AudioBuffer.InterleaveTo
      split
      · exact h
      · exact h
  | setNumChannels k => exact h
  | splitIntoFrequencyBands a => exact h
  | mergeFrequencyBands s => exact h

theorem run_ibState (ab : AudioBuffer) (ops : List Op) (h : ibState ab) :
    ibState (ab.run ops) := by
  induction ops generalizing ab with
  | nil => exact h
  | cons op ops ih => exact ih _ (step_ibState ab op h)

/-! Lemmas for runs in which `input_buffer_` is never needed. -/

theorem copyFromAlloc_no_ndm (ab : AudioBuffer) (h : needToDownmix ab = false) :
    ab.copyFromAlloc = ab := by
  unfold AudioBuffer.copyFromAlloc
  rw [h]
  rfl

theorem copyFromDownmix_no_ndm (ab : AudioBuffer) (x : Nat → Nat → ℚ)
    (h : needToDownmix ab = false) : ab.copyFromDownmix x = (ab, x) := by
  unfold AudioBuffer.copyFromDownmix
  rw [h]
  rfl

theorem copyFromResample_input_buffer (ab : AudioBuffer) (r : Nat → (Nat → ℚ) → Nat → ℚ)
    (ptr : Nat → Nat → ℚ) :
    (ab.copyFromResample r ptr).1.input_buffer = ab.input_buffer ∧
    (ab.copyFromResample r ptr).1.input_buffer_allocs = ab.input_buffer_allocs := by
  unfold AudioBuffer.copyFromResample
  split
  · exact ⟨rfl, rfl⟩
  · exact ⟨rfl, rfl⟩

/-- The method `CopyFrom` does not touch `input_buffer_` when no downmix is needed. -/
theorem copyFrom_input_buffer_no_ndm (ab : AudioBuffer) (r : Nat → (Nat → ℚ) → Nat → ℚ)
    (cf cc : Nat) (x : Nat → Nat → ℚ) (h : needToDownmix ab = false) :
    (ab.CopyFrom r cf cc x).input_buffer = ab.input_buffer ∧
    (ab.CopyFrom r cf cc x).input_buffer_allocs = ab.input_buffer_allocs := by
  unfold AudioBuffer.CopyFrom
  have hinit : needToDownmix ab.InitForNewData = false := h
  rw [copyFromAlloc_no_ndm _ hinit, copyFromDownmix_no_ndm _ _ hinit]
  exact copyFromResample_input_buffer _ _ _

theorem deinterleaveAlloc_same_rate (ab : AudioBuffer)
    (h : ab.input_num_frames = ab.proc_num_frames) : ab.deinterleaveAlloc = ab := by
  unfold AudioBuffer.deinterleaveAlloc
  rw [h]
  simp

theorem deinterleaveWrite_input_buffer_same_rate (ab : AudioBuffer) (d : Nat → Int)
    (h : ab.input_num_frames = ab.proc_num_frames) :
    (ab.deinterleaveWrite d).input_buffer = ab.input_buffer ∧
    (ab.deinterleaveWrite d).input_buffer_allocs = ab.input_buffer_allocs := by
  unfold AudioBuffer.deinterleaveWrite
  rw [h]
  simp

theorem deinterleaveResample_same_rate (ab : AudioBuffer)
    (r : Nat → (Nat → ℚ) → Nat → ℚ) (h : ab.input_num_frames = ab.proc_num_frames) :
    ab.deinterleaveResample r = ab := by
  unfold AudioBuffer.deinterleaveResample
  rw [h]
  simp

/-- The method `DeinterleaveFrom` does not touch `input_buffer_` at equal rates. -/
theorem deinterleaveFrom_input_buffer_same_rate (ab : AudioBuffer)
    (r : Nat → (Nat → ℚ) → Nat → ℚ) (fc fs : Nat) (d : Nat → Int)
    (h : ab.input_num_frames = ab.proc_num_frames) :
    (ab.DeinterleaveFrom r fc fs d).input_buffer = ab.input_buffer ∧
    (ab.DeinterleaveFrom r fc fs d).input_buffer_allocs = ab.input_buffer_allocs := by
  unfold AudioBuffer.DeinterleaveFrom
  have h1 : ab.InitForNewData.deinterleaveAlloc = ab.InitForNewData :=
    deinterleaveAlloc_same_rate _ h
  rw [h1]
  have h2 := deinterleaveWrite_input_buffer_same_rate ab.InitForNewData d h
  have h3 : (ab.InitForNewData.deinterleaveWrite d).input_num_frames
      = (ab.InitForNewData.deinterleaveWrite d).proc_num_frames := by
    have := shape_deinterleaveWrite ab.InitForNewData d
    have e1 : (ab.InitForNewData.deinterleaveWrite d).input_num_frames
        = ab.input_num_frames := congrArg (fun s => s.1) this
    have e2 : (ab.InitForNewData.deinterleaveWrite d).proc_num_frames
        = ab.proc_num_frames := congrArg (fun s => s.2.2.1) this
    rw [e1, e2]; exact h
  rw [deinterleaveResample_same_rate _ _ h3]
  exact h2

/-- Every call other than the two input operations leaves `input_buffer_`
untouched; the input operations leave it untouched when their allocation
condition fails. -/
theorem step_input_buffer_none (ab : AudioBuffer) (op : Op)
    (hnd : needToDownmix ab = false)
    (hfr : ab.input_num_frames = ab.proc_num_frames)
    (hib : ab.input_buffer = none) : (ab.step op).input_buffer = none := by
  cases op with
  | copyFrom r cf cc x =>
      rw [show (ab.step (Op.copyFrom r cf cc x)) = ab.CopyFrom r cf cc x from rfl,
        (copyFrom_input_buffer_no_ndm ab r cf cc x hnd).1]
      exact hib
  | deinterleaveFrom r fc fs d =>
      rw [show (ab.step (Op.deinterleaveFrom r fc fs d)) = ab.DeinterleaveFrom r fc fs d
          from rfl,
        (deinterleaveFrom_input_buffer_same_rate ab r fc fs d hfr).1]
      exact hib
  | copyTo r cf cc y =>
      show (ab.CopyTo r cf cc y).1.input_buffer = none
      unfold AudioBuffer.CopyTo AudioBuffer.copyToConvert
      split
      · exact hib
      · exact hib
  | interleaveTo r =>
      show (ab.InterleaveTo r).input_buffer = none
      unfold AudioBuffer.InterleaveTo
      split
      · exact hib
      · exact hib
  | setNumChannels k => exact hib
  | splitIntoFrequencyBands a => exact hib
  | mergeFrequencyBands s => exact hib

theorem run_input_buffer_none (ab : AudioBuffer) (ops : List Op)
    (hnd : needToDownmix ab = false)
    (hfr : ab.input_num_frames = ab.proc_num_frames)
    (hib : ab.input_buffer = none) : (ab.run ops).input_buffer = none := by
  induction ops generalizing ab with
  | nil => exact hib
  | cons op ops ih =>
      exact ih _ (by rw [step_needToDownmix]; exact hnd)
        (by rw [step_input_num_frames, step_proc_num_frames]; exact hfr)
        (step_input_buffer_none ab op hnd hfr hib)

/-! Value-level characterizations of the identity (no-resample, no-downmix)
paths, and the active-channel bookkeeping of the input operations. -/

theorem copyFromResample_same_rate (ab : AudioBuffer) (r : Nat → (Nat → ℚ) → Nat → ℚ)
    (ptr : Nat → Nat → ℚ) (h : ab.input_num_frames = ab.proc_num_frames) :
    ab.copyFromResample r ptr = (ab, ptr) := by
  unfold AudioBuffer.copyFromResample
  rw [h]
  simp

theorem copyToConvert_same_rate (ab : AudioBuffer) (r : Nat → (Nat → ℚ) → Nat → ℚ)
    (out0 : Nat → Nat → ℚ) (h : ab.output_num_frames = ab.proc_num_frames) :
    ab.copyToConvert r out0
      = (ab, fun c t =>
          (if c < ab.num_channels ∧ t < ab.proc_num_frames then
            FloatS16ToFloat (ab.data.fdata c t)
          else
            out0 c t)) := by
  unfold AudioBuffer.copyToConvert
  rw [h]
  simp

/-- On the equal-rate output path, `CopyTo` writes, at every in-range
channel of the active prefix, exactly `FloatS16ToFloat` of `data_`'s float
side. -/
theorem copyTo_same_rate (ab : AudioBuffer) (r : Nat → (Nat → ℚ) → Nat → ℚ)
    (cf cc : Nat) (out0 : Nat → Nat → ℚ) (h : ab.output_num_frames = ab.proc_num_frames)
    (c t : Nat) (hc : c < ab.num_channels) (ht : t < ab.proc_num_frames) :
    (ab.CopyTo r cf cc out0).2 c t = FloatS16ToFloat (ab.data.fdata c t) := by
  unfold AudioBuffer.CopyTo
  rw [copyToConvert_same_rate ab r out0 h]
  dsimp only
  rw [if_neg fun hcontra => absurd hc (Nat.not_lt.mpr hcontra.1), if_pos ⟨hc, ht⟩]

/-- On the no-downmix, equal-rate input path, `CopyFrom` writes, at every
in-range sample, exactly `FloatToFloatS16` of the input. -/
theorem copyFrom_data_identity (ab : AudioBuffer) (r : Nat → (Nat → ℚ) → Nat → ℚ)
    (cf cc : Nat) (x : Nat → Nat → ℚ) (hnd : needToDownmix ab = false)
    (hfr : ab.input_num_frames = ab.proc_num_frames) (c t : Nat)
    (hc : c < ab.num_proc_channels) (ht : t < ab.proc_num_frames) :
    (ab.CopyFrom r cf cc x).data.fdata c t = FloatToFloatS16 (x c t) := by
  unfold AudioBuffer.CopyFrom
  rw [copyFromAlloc_no_ndm _ (show needToDownmix ab.InitForNewData = false from hnd),
    copyFromDownmix_no_ndm _ _ (show needToDownmix ab.InitForNewData = false from hnd)]
  dsimp only
  rw [copyFromResample_same_rate ab.InitForNewData r x
    (show ab.InitForNewData.input_num_frames = ab.InitForNewData.proc_num_frames from hfr)]
  dsimp only
  rw [if_pos (⟨hc, ht⟩ :
    c < ab.InitForNewData.num_proc_channels ∧ t < ab.InitForNewData.proc_num_frames)]

/-- The active-channel-level observables that the input operations reset:
the buffer's `num_channels_` and its propagation into `data_` and
`split_data_`. -/
def core (a : AudioBuffer) : Nat × Nat × Option Nat :=
  (a.num_channels, a.data.num_channels, a.split_data.map IFChannelBuffer.num_channels)

theorem core_init (ab : AudioBuffer) :
    core ab.InitForNewData
      = (ab.num_proc_channels, ab.num_proc_channels,
          ab.split_data.map fun _ => ab.num_proc_channels) := by
  unfold core AudioBuffer.InitForNewData
  refine congrArg (fun o => (ab.num_proc_channels, ab.num_proc_channels, o)) ?_
  cases ab.split_data <;> rfl

theorem core_copyFromAlloc (ab : AudioBuffer) : core ab.copyFromAlloc = core ab := by
  unfold AudioBuffer.copyFromAlloc
  split <;> rfl

theorem core_copyFromDownmix (ab : AudioBuffer) (x : Nat → Nat → ℚ) :
    core (ab.copyFromDownmix x).1 = core ab := by
  unfold AudioBuffer.copyFromDownmix
  split <;> rfl

theorem core_copyFromResample (ab : AudioBuffer) (r : Nat → (Nat → ℚ) → Nat → ℚ)
    (ptr : Nat → Nat → ℚ) : core (ab.copyFromResample r ptr).1 = core ab := by
  unfold AudioBuffer.copyFromResample
  split <;> rfl

theorem core_copyFrom (ab : AudioBuffer) (r : Nat → (Nat → ℚ) → Nat → ℚ)
    (cf cc : Nat) (x : Nat → Nat → ℚ) :
    core (ab.CopyFrom r cf cc x) = core ab.InitForNewData := by
  unfold AudioBuffer.CopyFrom
  rw [show ∀ (s : AudioBuffer) (f : Nat → Nat → ℚ),
      core { s with data := { s.data with fdata := f } } = core s from fun _ _ => rfl]
  rw [core_copyFromResample, core_copyFromDownmix, core_copyFromAlloc]

theorem core_deinterleaveAlloc (ab : AudioBuffer) :
    core ab.deinterleaveAlloc = core ab := by
  unfold AudioBuffer.deinterleaveAlloc
  split <;> rfl

theorem core_deinterleaveWrite (ab : AudioBuffer) (d : Nat → Int) :
    core (ab.deinterleaveWrite d) = core ab := by
  unfold AudioBuffer.deinterleaveWrite
  split <;> rfl

theorem core_deinterleaveResample (ab : AudioBuffer)
    (r : Nat → (Nat → ℚ) → Nat → ℚ) : core (ab.deinterleaveResample r) = core ab := by
  unfold AudioBuffer.deinterleaveResample
  split <;> rfl

theorem core_deinterleaveFrom (ab : AudioBuffer) (r : Nat → (Nat → ℚ) → Nat → ℚ)
    (fc fs : Nat) (d : Nat → Int) :
    core (ab.DeinterleaveFrom r fc fs d) = core ab.InitForNewData := by
  unfold AudioBuffer.DeinterleaveFrom
  rw [core_deinterleaveResample, core_deinterleaveWrite, core_deinterleaveAlloc]

/-! ### The claims -/

/-- C1: when `input_frames == proc_frames == output_frames` and
`input_channels == proc_channels`, calling `CopyFrom(x)` and then `CopyTo`
with a config of `active_channels` channels and no intervening mutation
reproduces the input exactly in the float-normalized domain up to
saturation: every in-range output sample equals the input clamped to
`[-1, 32767/32768]` (in particular `+1.0` maps to `+32767/32768`, values
inside the clamp range are reproduced exactly). -/
theorem C1_round_trip (F C : Nat) (rIn rOut : Nat → (Nat → ℚ) → Nat → ℚ)
    (x out0 : Nat → Nat → ℚ) (c t : Nat) (hc : c < C) (ht : t < F) :
    (((mkAudioBuffer F C F C F).CopyFrom rIn F C x).CopyTo rOut F C out0).2 c t
      = max (-1) (min (x c t) (32767 / 32768)) := by
  have hnd : needToDownmix (mkAudioBuffer F C F C F) = false :=
    needToDownmix_of_eq_channels _ rfl
  have hcore := core_copyFrom (mkAudioBuffer F C F C F) rIn F C x
  have hnc : ((mkAudioBuffer F C F C F).CopyFrom rIn F C x).num_channels = C :=
    congrArg (fun s => s.1) hcore
  have hshape := shape_copyFrom (mkAudioBuffer F C F C F) rIn F C x
  have hpf : ((mkAudioBuffer F C F C F).CopyFrom rIn F C x).proc_num_frames = F :=
    congrArg (fun s => s.2.2.1) hshape
  have hof : ((mkAudioBuffer F C F C F).CopyFrom rIn F C x).output_num_frames
      = ((mkAudioBuffer F C F C F).CopyFrom rIn F C x).proc_num_frames := by
    rw [hpf]
    exact congrArg (fun s => s.2.2.2.2.1) hshape
  have hc2 : c < ((mkAudioBuffer F C F C F).CopyFrom rIn F C x).num_channels := by
    rw [hnc]; exact hc
  have ht2 : t < ((mkAudioBuffer F C F C F).CopyFrom rIn F C x).proc_num_frames := by
    rw [hpf]; exact ht
  rw [copyTo_same_rate _ rOut F C out0 hof c t hc2 ht2,
    copyFrom_data_identity _ rIn F C x hnd rfl c t hc ht]
  exact floatS16_round_trip (x c t)

/-- Witness for C1: a concrete 1-frame mono round trip of the sample
`+1.0`, saturating to `+32767/32768`. -/
theorem C1_round_trip_witness :
    (((mkAudioBuffer 1 1 1 1 1).CopyFrom (fun _ f => f) 1 1 (fun _ _ => 1)).CopyTo
        (fun _ f => f) 1 1 (fun _ _ => 0)).2 0 0
      = max (-1) (min 1 (32767 / 32768)) :=
  C1_round_trip 1 1 (fun _ f => f) (fun _ f => f) (fun _ _ => 1) (fun _ _ => 0) 0 0
    (by decide) (by decide)

/-- C2: both input operations (`CopyFrom` and `DeinterleaveFrom`) set the
active channel count to `proc_channels` regardless of its prior value, and
propagate that count to `data` and, when present, to `split_data`. -/
theorem C2_active_channel_reset (ab : AudioBuffer) (r r2 : Nat → (Nat → ℚ) → Nat → ℚ)
    (cf cc fc fs : Nat) (x : Nat → Nat → ℚ) (d : Nat → Int) :
    ((ab.CopyFrom r cf cc x).num_channels = ab.num_proc_channels ∧
      (ab.CopyFrom r cf cc x).data.num_channels = ab.num_proc_channels ∧
      (ab.CopyFrom r cf cc x).split_data.map IFChannelBuffer.num_channels
        = ab.split_data.map fun _ => ab.num_proc_channels) ∧
    ((ab.DeinterleaveFrom r2 fc fs d).num_channels = ab.num_proc_channels ∧
      (ab.DeinterleaveFrom r2 fc fs d).data.num_channels = ab.num_proc_channels ∧
      (ab.DeinterleaveFrom r2 fc fs d).split_data.map IFChannelBuffer.num_channels
        = ab.split_data.map fun _ => ab.num_proc_channels) := by
  have h1 := (core_copyFrom ab r cf cc x).trans (core_init ab)
  have h2 := (core_deinterleaveFrom ab r2 fc fs d).trans (core_init ab)
  exact ⟨⟨congrArg (fun s => s.1) h1, congrArg (fun s => s.2.1) h1,
      congrArg (fun s => s.2.2) h1⟩,
    ⟨congrArg (fun s => s.1) h2, congrArg (fun s => s.2.1) h2,
      congrArg (fun s => s.2.2) h2⟩⟩

/-- C3: for every construction, `num_bands` is 2 exactly when
`proc_frames = 320`, 3 exactly when `proc_frames = 480`, and 1 for every
other value (160 included); `frames_per_band` is the exact quotient
`proc_frames / num_bands`, and `num_bands * frames_per_band = proc_frames`
always holds. -/
theorem C3_num_bands (inF inC pF pC outF : Nat) :
    (mkAudioBuffer inF inC pF pC outF).num_bands
        = (if pF = 320 then 2 else if pF = 480 then 3 else 1) ∧
    (mkAudioBuffer inF inC pF pC outF).num_split_frames
        = pF / (mkAudioBuffer inF inC pF pC outF).num_bands ∧
    (mkAudioBuffer inF inC pF pC outF).num_bands
        * (mkAudioBuffer inF inC pF pC outF).num_split_frames = pF := by
  refine ⟨?_, rfl, ?_⟩
  · show NumBandsFromSamplesPerChannel pF = _
    unfold NumBandsFromSamplesPerChannel kSamplesPer16kHzChannel kSamplesPer32kHzChannel
      kSamplesPer48kHzChannel
    by_cases h32 : pF = 320
    · subst h32; norm_num
    · by_cases h48 : pF = 480
      · subst h48; norm_num
      · simp [h32, h48]
  · show NumBandsFromSamplesPerChannel pF * (pF / NumBandsFromSamplesPerChannel pF) = pF
    unfold NumBandsFromSamplesPerChannel kSamplesPer16kHzChannel kSamplesPer32kHzChannel
      kSamplesPer48kHzChannel
    by_cases h32 : pF = 320
    · subst h32; norm_num
    · by_cases h48 : pF = 480
      · subst h48; norm_num
      · simp [h32, h48]

/-- C4: with `input_channels = 2`, `proc_channels = 1` and equal input and
processing rates, after `CopyFrom(x)` the single processing channel holds,
at every in-range frame, the frame-wise arithmetic mean of the two input
channels scaled to the S16 range (multiplied by 32768, clamped to
`[-32768, 32767]`). -/
theorem C4_downmix_mean (F outF : Nat) (r : Nat → (Nat → ℚ) → Nat → ℚ)
    (x : Nat → Nat → ℚ) (t : Nat) (ht : t < F) :
    ((mkAudioBuffer F 2 F 1 outF).CopyFrom r F 2 x).data.fdata 0 t
      = max (-32768) (min (((x 0 t + x 1 t) / 2) * 32768) 32767) := by
  have hmean : DownmixToMono 2 x t = (x 0 t + x 1 t) / 2 := by
    unfold DownmixToMono
    rw [Finset.sum_range_succ, Finset.sum_range_one]
    norm_num
  unfold AudioBuffer.CopyFrom AudioBuffer.copyFromAlloc AudioBuffer.copyFromDownmix
    AudioBuffer.copyFromResample AudioBuffer.InitForNewData needToDownmix mkAudioBuffer
    IFChannelBuffer.mk0 IFChannelBuffer.set_num_channels
  norm_num [ht, hmean, FloatToFloatS16]

/-- Witness for C4: a concrete one-frame stereo-to-mono downmix of
`(0.4, -0.2)`, with an output rate differing from the input rate. -/
theorem C4_downmix_mean_witness :
    ((mkAudioBuffer 1 2 1 1 3).CopyFrom (fun _ f => f) 1 2
        (fun c _ => if c = 0 then 2/5 else -(1/5))).data.fdata 0 0
      = max (-32768) (min ((((2:ℚ)/5 + -(1/5)) / 2) * 32768) 32767) := by
  have h := C4_downmix_mean 1 3 (fun _ f => f) (fun c _ => if c = 0 then 2/5 else -(1/5)) 0
    (by decide)
  simpa using h

/-- C5: with a single active channel and a consumer config of `k > 1`
channels, every output channel `i ∈ [1, k)` of `CopyTo` equals output
channel 0, sample for sample. -/
theorem C5_upmix_equal (ab : AudioBuffer) (r : Nat → (Nat → ℚ) → Nat → ℚ) (cfgF k : Nat)
    (out0 : Nat → Nat → ℚ) (h1 : ab.num_channels = 1) (i t : Nat)
    (hi : 1 ≤ i) (hik : i < k) (ht : t < ab.output_num_frames) :
    (ab.CopyTo r cfgF k out0).2 i t = (ab.CopyTo r cfgF k out0).2 0 t := by
  have e1 : (ab.copyToConvert r out0).1.num_channels = ab.num_channels := by
    unfold AudioBuffer.copyToConvert
    split <;> rfl
  have e2 : (ab.copyToConvert r out0).1.output_num_frames = ab.output_num_frames := by
    unfold AudioBuffer.copyToConvert
    split <;> rfl
  unfold AudioBuffer.CopyTo
  dsimp only
  rw [if_pos ⟨by rw [e1, h1]; exact hi, hik, by rw [e2]; exact ht⟩, ite_self]

/-- Witness for C5: a concrete mono buffer copied to a 2-channel consumer. -/
theorem C5_upmix_equal_witness :
    ((mkAudioBuffer 1 1 1 1 1).CopyTo (fun _ f => f) 1 2 (fun _ _ => 0)).2 1 0
      = ((mkAudioBuffer 1 1 1 1 1).CopyTo (fun _ f => f) 1 2 (fun _ _ => 0)).2 0 0 :=
  C5_upmix_equal (mkAudioBuffer 1 1 1 1 1) (fun _ f => f) 1 2 (fun _ _ => 0) rfl 1 0
    (by decide) (by decide) (by decide)

/-- C6: after construction, `input_resamplers` holds exactly
`proc_channels` converters iff `input_frames ≠ proc_frames`, and
`output_resamplers` holds exactly `proc_channels` converters iff
`output_frames ≠ proc_frames`; both collections are empty otherwise, and no
later operation changes either collection. -/
theorem C6_resampler_collections (inF inC pF pC outF : Nat) (hpc : 0 < pC)
    (ops : List Op) :
    ((mkAudioBuffer inF inC pF pC outF).input_resamplers = pC ↔ inF ≠ pF) ∧
    ((mkAudioBuffer inF inC pF pC outF).output_resamplers = pC ↔ outF ≠ pF) ∧
    (inF = pF → (mkAudioBuffer inF inC pF pC outF).input_resamplers = 0) ∧
    (outF = pF → (mkAudioBuffer inF inC pF pC outF).output_resamplers = 0) ∧
    ((mkAudioBuffer inF inC pF pC outF).run ops).input_resamplers
        = (mkAudioBuffer inF inC pF pC outF).input_resamplers ∧
    ((mkAudioBuffer inF inC pF pC outF).run ops).output_resamplers
        = (mkAudioBuffer inF inC pF pC outF).output_resamplers := by
  refine ⟨?_, ?_, ?_, ?_, run_input_resamplers _ ops, run_output_resamplers _ ops⟩
  · show (if inF ≠ pF then pC else 0) = pC ↔ inF ≠ pF
    by_cases h : inF = pF
    · subst h; simp; omega
    · simp [h]
  · show (if outF ≠ pF then pC else 0) = pC ↔ outF ≠ pF
    by_cases h : outF = pF
    · subst h; simp; omega
    · simp [h]
  · intro h
    show (if inF ≠ pF then pC else 0) = 0
    simp [h]
  · intro h
    show (if outF ≠ pF then pC else 0) = 0
    simp [h]

/-- Witness for C6 at a concrete resampling construction. -/
theorem C6_resampler_collections_witness :
    ((mkAudioBuffer 480 1 160 1 480).input_resamplers = 1 ↔ (480:Nat) ≠ 160) ∧
    ((mkAudioBuffer 480 1 160 1 480).run []).input_resamplers
        = (mkAudioBuffer 480 1 160 1 480).input_resamplers := by
  have h := C6_resampler_collections 480 1 160 1 480 (by decide) []
  exact ⟨h.1, h.2.2.2.2.1⟩

/-- C7: `input_buffer` is absent after construction and is allocated at
most once over the buffer's lifetime; `CopyFrom` leaves it untouched unless
`input_channels > 1 ∧ proc_channels = 1`, `DeinterleaveFrom` leaves it
untouched unless `input_frames ≠ proc_frames`, and it stays absent in every
run in which neither condition ever holds. -/
theorem C7_input_buffer_lazy (inF inC pF pC outF : Nat) (ops : List Op)
    (ab : AudioBuffer) (r r2 : Nat → (Nat → ℚ) → Nat → ℚ) (cf cc fc fs : Nat)
    (x : Nat → Nat → ℚ) (d : Nat → Int) :
    (mkAudioBuffer inF inC pF pC outF).input_buffer = none ∧
    ((mkAudioBuffer inF inC pF pC outF).run ops).input_buffer_allocs ≤ 1 ∧
    (¬(1 < inC ∧ pC = 1) → inF = pF →
      ((mkAudioBuffer inF inC pF pC outF).run ops).input_buffer = none) ∧
    (¬(1 < ab.num_input_channels ∧ ab.num_proc_channels = 1) →
      (ab.CopyFrom r cf cc x).input_buffer = ab.input_buffer ∧
      (ab.CopyFrom r cf cc x).input_buffer_allocs = ab.input_buffer_allocs) ∧
    (ab.input_num_frames = ab.proc_num_frames →
      (ab.DeinterleaveFrom r2 fc fs d).input_buffer = ab.input_buffer ∧
      (ab.DeinterleaveFrom r2 fc fs d).input_buffer_allocs = ab.input_buffer_allocs) := by
  refine ⟨rfl, ?_, ?_, ?_, deinterleaveFrom_input_buffer_same_rate ab r2 fc fs d⟩
  · have h := run_ibState (mkAudioBuffer inF inC pF pC outF) ops (Or.inl ⟨rfl, rfl⟩)
    rcases h with ⟨-, h2⟩ | ⟨-, h2⟩ <;> omega
  · intro hnd hfr
    refine run_input_buffer_none _ ops ?_ hfr rfl
    exact Bool.eq_false_iff.mpr fun hT =>
      hnd ((needToDownmix_iff (mkAudioBuffer inF inC pF pC outF)).mp hT)
  · intro hnd
    exact copyFrom_input_buffer_no_ndm ab r cf cc x
      (Bool.eq_false_iff.mpr fun hT => hnd ((needToDownmix_iff ab).mp hT))

/-- Witness for C7: concrete runs whose allocation conditions fail. -/
theorem C7_input_buffer_lazy_witness :
    ((mkAudioBuffer 160 2 160 2 160).run []).input_buffer = none ∧
    ((mkAudioBuffer 160 2 160 2 160).CopyFrom (fun _ f => f) 160 2
        (fun _ _ => 0)).input_buffer = (mkAudioBuffer 160 2 160 2 160).input_buffer ∧
    ((mkAudioBuffer 160 2 160 2 160).DeinterleaveFrom (fun _ f => f) 2 160
        (fun _ => 0)).input_buffer = (mkAudioBuffer 160 2 160 2 160).input_buffer := by
  have h := C7_input_buffer_lazy 160 2 160 2 160 [] (mkAudioBuffer 160 2 160 2 160)
      (fun _ f => f) (fun _ f => f) 160 2 2 160 (fun _ _ => 0) (fun _ => 0)
  exact ⟨h.2.2.1 (by decide) rfl, (h.2.2.2.1 (by decide)).1, (h.2.2.2.2 rfl).1⟩

/-- C8 counterexample: at the construction `(480, 1, 160, 1, 480)` (48 kHz
I/O, 16 kHz processing) `process_buffer` is already present immediately
after construction, contradicting "absent after construction and created on
first need by the first operation that uses it". -/
theorem C8_process_buffer_cex :
    (mkAudioBuffer 480 1 160 1 480).process_buffer.isSome = true := rfl

/-- C8 (amended): `process_buffer` is allocated eagerly by the constructor,
exactly when `input_frames ≠ proc_frames` or `output_frames ≠ proc_frames`;
it is absent otherwise, and no later operation allocates or frees it. -/
theorem C8_process_buffer_eager (inF inC pF pC outF : Nat) (ops : List Op) :
    ((mkAudioBuffer inF inC pF pC outF).process_buffer.isSome = true
        ↔ (inF ≠ pF ∨ outF ≠ pF)) ∧
    ((mkAudioBuffer inF inC pF pC outF).run ops).process_buffer.isSome
        = (mkAudioBuffer inF inC pF pC outF).process_buffer.isSome := by
  refine ⟨?_, run_process_buffer_isSome _ ops⟩
  show (if inF ≠ pF ∨ outF ≠ pF then some (fun _ _ => (0:ℚ)) else none).isSome = true ↔ _
  by_cases h : inF ≠ pF ∨ outF ≠ pF <;> simp [h]

/-- C9: `split_channels_const_f(band)` returns the channel views of
`split_data` at that band whenever `split_data` exists; when it does not,
it returns the full-band channel views of `data` for band 0 and nothing
(`none`) for every other band. -/
theorem C9_split_channels (ab : AudioBuffer) (band : Nat) :
    (∀ sd, ab.split_data = some sd →
        ab.split_channels_const_f band = some (sd.bandChannels band)) ∧
    (ab.split_data = none →
        ab.split_channels_const_f band
          = (if band = 0 then some (fun c i => ab.data.fdata c i) else none)) := by
  constructor
  · intro sd h
    unfold AudioBuffer.split_channels_const_f
    rw [h]
  · intro h
    unfold AudioBuffer.split_channels_const_f
    rw [h]

/-- Witness for C9: a single-band buffer has no view for band 1. -/
theorem C9_split_channels_witness :
    (mkAudioBuffer 160 1 160 1 160).split_channels_const_f 1 = none := by
  have h := (C9_split_channels (mkAudioBuffer 160 1 160 1 160) 1).2 rfl
  simpa using h

/-- C10: `set_num_channels(k)` changes only the active channel count of the
buffer, of `data`, and of `split_data` when present; the stored sample
contents of `data` and `split_data`, the `input_buffer`, `output_buffer`
and `process_buffer` states, and both resampler collections are all
unchanged. -/
theorem C10_set_num_channels_frame (ab : AudioBuffer) (k : Nat) :
    (ab.set_num_channels k).num_channels = k ∧
    (ab.set_num_channels k).data.num_channels = k ∧
    (ab.set_num_channels k).data.fdata = ab.data.fdata ∧
    (ab.set_num_channels k).split_data.map IFChannelBuffer.num_channels
        = ab.split_data.map (fun _ => k) ∧
    (ab.set_num_channels k).split_data.map IFChannelBuffer.fdata
        = ab.split_data.map IFChannelBuffer.fdata ∧
    (ab.set_num_channels k).input_buffer = ab.input_buffer ∧
    (ab.set_num_channels k).output_buffer = ab.output_buffer ∧
    (ab.set_num_channels k).process_buffer = ab.process_buffer ∧
    (ab.set_num_channels k).input_resamplers = ab.input_resamplers ∧
    (ab.set_num_channels k).output_resamplers = ab.output_resamplers := by
  refine ⟨rfl, rfl, rfl, ?_, ?_, rfl, rfl, rfl, rfl, rfl⟩ <;>
    (unfold AudioBuffer.set_num_channels; cases ab.split_data <;> rfl)

end Webrtc
